import Mathlib

/-!
Verification of the loopback OAuth callback listener
(`apps/web/src-tauri/src/lib.rs`).

The listener is embedded shallowly:

* request/response text is modelled as `List Char` (Rust `String`); raw
  socket data as `List Nat` (bytes, each `< 256`);
* `String::from_utf8_lossy` is modelled byte-for-byte by `decodeUtf8Lossy`
  (Rust's maximal-subpart replacement policy);
* `read_request`'s socket-read loop is modelled by `readLoop` over a list of
  read results (`none` = I/O error, `some []` = `Ok(0)`, `some bs` = `Ok(n)`
  delivering bytes `bs`); an exhausted list behaves like a peer close;
* the per-connection dispatch (lines 189-213 of the source) is `handleRequest`;
* the bounded accept loop (`for _ in 0..20`) is `acceptLoop` over a list of
  accept outcomes, producing a trace of socket writes and event emissions.
-/

set_option maxRecDepth 1000000
set_option maxHeartbeats 2000000

namespace OauthListener

abbrev Str := List Char

def str (s : String) : Str := s.data

/-! ### UTF-8: Rust `String::from_utf8_lossy`, `str::len`, and encoding -/

def isCont (b : Nat) : Bool := decide (0x80 ≤ b ∧ b ≤ 0xBF)

/-- Valid range of the first continuation byte of a 3-byte sequence,
which depends on the leading byte (excludes overlong forms and surrogates). -/
def cont3First (b0 b1 : Nat) : Bool :=
  if b0 = 0xE0 then decide (0xA0 ≤ b1 ∧ b1 ≤ 0xBF)
  else if b0 = 0xED then decide (0x80 ≤ b1 ∧ b1 ≤ 0x9F)
  else isCont b1

/-- Valid range of the first continuation byte of a 4-byte sequence. -/
def cont4First (b0 b1 : Nat) : Bool :=
  if b0 = 0xF0 then decide (0x90 ≤ b1 ∧ b1 ≤ 0xBF)
  else if b0 = 0xF4 then decide (0x80 ≤ b1 ∧ b1 ≤ 0x8F)
  else isCont b1

/-- Decoder state for `decodeUtf8Lossy`: `start` between scalar values,
`first3 b0` and `first4 b0` after a 3- or 4-byte leading byte (the valid range of
the next byte still depends on `b0`), `more k cp` expecting `k` further
plain continuation bytes with partial code point `cp`. -/
inductive DecState where
  | start
  | first3 (b0 : Nat)
  | first4 (b0 : Nat)
  | more (k : Nat) (cp : Nat)

/-- Processing one byte in the `start` state (also used to reprocess a byte
that aborted a multi-byte sequence).  Emitted characters are produced in
reverse order. -/
def startByte (b : Nat) : DecState × List Char :=
  if b < 0x80 then (.start, [Char.ofNat b])
  else if 0xC2 ≤ b ∧ b ≤ 0xDF then (.more 1 (b - 0xC0), [])
  else if 0xE0 ≤ b ∧ b ≤ 0xEF then (.first3 b, [])
  else if 0xF0 ≤ b ∧ b ≤ 0xF4 then (.first4 b, [])
  else (.start, ['�'])

/-- One step of lossy UTF-8 decoding.  A byte that is not a valid
continuation of the pending sequence yields one U+FFFD for the maximal
subpart consumed so far and is reprocessed as a leading byte, exactly as
Rust's `from_utf8_lossy` resumes after an error of that length. -/
def decStep (st : DecState) (b : Nat) : DecState × List Char :=
  match st with
  | .start => startByte b
  | .first3 b0 =>
    if cont3First b0 b then (.more 1 ((b0 - 0xE0) * 0x40 + (b - 0x80)), [])
    else
      match startByte b with
      | (st2, cs) => (st2, cs ++ ['�'])
  | .first4 b0 =>
    if cont4First b0 b then (.more 2 ((b0 - 0xF0) * 0x40 + (b - 0x80)), [])
    else
      match startByte b with
      | (st2, cs) => (st2, cs ++ ['�'])
  | .more k cp =>
    if isCont b then
      if k ≤ 1 then (.start, [Char.ofNat (cp * 0x40 + (b - 0x80))])
      else (.more (k - 1) (cp * 0x40 + (b - 0x80)), [])
    else
      match startByte b with
      | (st2, cs) => (st2, cs ++ ['�'])

/-- The decoding loop: characters are accumulated in reverse; a pending
incomplete sequence at end of input yields a single final U+FFFD. -/
def decLoop : DecState → List Char → List Nat → List Char
  | st, acc, [] => (match st with | .start => acc | _ => '�' :: acc).reverse
  | st, acc, b :: bs =>
    match decStep st b with
    | (st2, cs) => decLoop st2 (cs ++ acc) bs

/-- Rust `String::from_utf8_lossy`: decode UTF-8, replacing each maximal
subpart of an ill-formed subsequence with U+FFFD.  An ill-formed sequence of
`k` consumed bytes yields one replacement character and decoding resumes at
the first unconsumed byte; an incomplete sequence at the end of input yields
a single final replacement character. -/
def decodeUtf8Lossy (bs : List Nat) : List Char := decLoop .start [] bs

/-- Byte length of the UTF-8 encoding of a string: Rust `str::len`. -/
def utf8Len (s : Str) : Nat := (s.map Char.utf8Size).sum

/-- Standard UTF-8 encoding of one scalar value. -/
def encodeChar (c : Char) : List Nat :=
  let n := c.toNat
  if n < 0x80 then [n]
  else if n < 0x800 then [0xC0 + n / 0x40, 0x80 + n % 0x40]
  else if n < 0x10000 then
    [0xE0 + n / 0x1000, 0x80 + n / 0x40 % 0x40, 0x80 + n % 0x40]
  else
    [0xF0 + n / 0x40000, 0x80 + n / 0x1000 % 0x40, 0x80 + n / 0x40 % 0x40, 0x80 + n % 0x40]

/-- UTF-8 encoding of a string: the bytes Rust writes for a `&str`. -/
def utf8Encode (s : Str) : List Nat := (s.map encodeChar).flatten

/-! ### The string operations the listener uses -/

def asciiLower (c : Char) : Char :=
  if 'A' ≤ c ∧ c ≤ 'Z' then Char.ofNat (c.toNat + 32) else c

/-- `str::to_lowercase` (the header names involved are ASCII, where Unicode
lowercasing agrees with ASCII lowercasing). -/
def lowerStr (s : Str) : Str := s.map asciiLower

/-- ASCII whitespace as recognised by `char::is_whitespace`
(the request lines involved contain no non-ASCII whitespace). -/
def isWs (c : Char) : Bool :=
  decide (c = ' ' ∨ c = '\t' ∨ c = '\n' ∨ c = '\r' ∨ c = '\x0b' ∨ c = '\x0c')

def splitWsAux : Str → Str → List Str
  | [], acc => if acc = [] then [] else [acc.reverse]
  | c :: cs, acc =>
    if isWs c then
      if acc = [] then splitWsAux cs [] else acc.reverse :: splitWsAux cs []
    else
      splitWsAux cs (c :: acc)

/-- Rust `str::split_whitespace`. -/
def splitWs (s : Str) : List Str := splitWsAux s []

/-- Rust `str::split(sep)`: every segment, empty segments included. -/
def splitOnChar (sep : Char) : Str → List Str
  | [] => [[]]
  | c :: cs =>
    if c = sep then [] :: splitOnChar sep cs
    else
      match splitOnChar sep cs with
      | [] => [[c]]
      | s :: ss => (c :: s) :: ss

def stripCr (l : Str) : Str := if l.getLast? = some '\r' then l.dropLast else l

/-- Rust `str::lines`: split on `\n`, drop a final empty segment, strip one
trailing `\r` from each line. -/
def rustLines (s : Str) : List Str :=
  if s = [] then []
  else
    let parts := splitOnChar '\n' s
    let parts := if parts.getLast? = some [] then parts.dropLast else parts
    parts.map stripCr

/-- `request.lines().next().unwrap_or("")`. -/
def firstLine (r : Str) : Str := (rustLines r).headD []

def crlf2 : Str := ['\r', '\n', '\r', '\n']

/-- Worker for `splitSep`: scan for the blank line, accumulating the
already-scanned characters in reverse. -/
def splitSepAux : Str → Str → Option (Str × Str)
  | _, [] => none
  | acc, c :: cs =>
    if crlf2.isPrefixOf (c :: cs) then some (acc.reverse, cs.drop 3)
    else splitSepAux (c :: acc) cs

/-- `s.find("\r\n\r\n")` together with the slicing the listener performs on
the result: `some (pre, post)` splits `s` around the FIRST occurrence of the
blank line (`s = pre ++ crlf2 ++ post`), `none` if there is none. -/
def splitSep (s : Str) : Option (Str × Str) := splitSepAux [] s

/-- Rust `str::trim` (ASCII whitespace; the values involved are ASCII). -/
def trimStr (s : Str) : Str := ((s.dropWhile isWs).reverse.dropWhile isWs).reverse

def isDigit (c : Char) : Bool := decide ('0' ≤ c ∧ c ≤ '9')

def digitsToNat (s : Str) : Nat := s.foldl (fun a c => a * 10 + (c.toNat - '0'.toNat)) 0

/-- Rust `str::parse::<usize>()` on a 64-bit target: an optional leading `+`,
then one or more ASCII digits, value below `2 ^ 64`; anything else is an
error. -/
def parseUsize (s : Str) : Option Nat :=
  let t := match s with | '+' :: r => r | _ => s
  if t ≠ [] ∧ t.all isDigit = true ∧ digitsToNat t < 2 ^ 64 then some (digitsToNat t)
  else none

/-- `Vec::len` / `str::len` on the raw buffer, written with a strictly
forced accumulator (the inner match) so that it evaluates in constant
stack; `listLen_eq` below identifies it with `List.length`. -/
def listLen (acc : Nat) : List Nat → Nat
  | [] => acc
  | _ :: xs =>
    match acc + 1 with
    | 0 => 0
    | a + 1 => listLen (a + 1) xs

/-! ### Embedded constants -/

/-- The static login page served for unmatched routes (LOGIN_HTML in the source). -/
def loginHtmlStr : String :=
  "<!DOCTYPE html>\n"
  ++ "<html lang=\"ko\">\n"
  ++ "<head>\n"
  ++ "<meta charset=\"utf-8\">\n"
  ++ "<meta name=\"viewport\" content=\"width=device-width, initial-scale=1\">\n"
  ++ "<title>AI Todo - Google Login</title>\n"
  ++ "<style>\n"
  ++ "  * \x7b margin: 0; padding: 0; box-sizing: border-box; \x7d\n"
  ++ "  body \x7b font-family: system-ui, -apple-system, sans-serif; background: #08081a; color: #e2e8f0; display: flex; align-items: center; justify-content: center; min-height: 100vh; \x7d\n"
  ++ "  .card \x7b background: #111128; border: 1px solid #1e1e3a; border-radius: 16px; padding: 48px; text-align: center; max-width: 400px; width: 90%; \x7d\n"
  ++ "  h1 \x7b font-size: 28px; margin-bottom: 8px; background: linear-gradient(to right, #e2e8f0, #e94560); -webkit-background-clip: text; -webkit-text-fill-color: transparent; \x7d\n"
  ++ "  p \x7b color: #94a3b8; margin-bottom: 24px; font-size: 14px; \x7d\n"
  ++ "  .spinner \x7b width: 40px; height: 40px; border: 3px solid #1e1e3a; border-top-color: #e94560; border-radius: 50%; animation: spin 0.8s linear infinite; margin: 24px auto; \x7d\n"
  ++ "  @keyframes spin \x7b to \x7b transform: rotate(360deg); \x7d \x7d\n"
  ++ "  .error \x7b color: #ef4444; margin-top: 16px; font-size: 13px; \x7d\n"
  ++ "  .success \x7b color: #34d399; \x7d\n"
  ++ "  #status \x7b margin-top: 16px; font-size: 13px; color: #94a3b8; \x7d\n"
  ++ "</style>\n"
  ++ "</head>\n"
  ++ "<body>\n"
  ++ "<div class=\"card\">\n"
  ++ "  <h1>AI Todo</h1>\n"
  ++ "  <p>Google 계정으로 로그인 중...</p>\n"
  ++ "  <div class=\"spinner\" id=\"spinner\"></div>\n"
  ++ "  <div id=\"status\">잠시만 기다려주세요</div>\n"
  ++ "  <div class=\"error\" id=\"error\"></div>\n"
  ++ "</div>\n"
  ++ "<script src=\"https://www.gstatic.com/firebasejs/10.12.0/firebase-app-compat.js\"></script>\n"
  ++ "<script src=\"https://www.gstatic.com/firebasejs/10.12.0/firebase-auth-compat.js\"></script>\n"
  ++ "<script>\n"
  ++ "(async function() \x7b\n"
  ++ "  var params = new URLSearchParams(location.search);\n"
  ++ "  var config = \x7b\n"
  ++ "    apiKey: params.get('apiKey'),\n"
  ++ "    authDomain: params.get('authDomain'),\n"
  ++ "    projectId: params.get('projectId'),\n"
  ++ "  \x7d;\n"
  ++ "  var mode = params.get('mode') || 'popup'; // 'popup' | 'redirect'\n"
  ++ "  var statusEl = document.getElementById('status');\n"
  ++ "  var errorEl = document.getElementById('error');\n"
  ++ "  var spinnerEl = document.getElementById('spinner');\n"
  ++ "\n"
  ++ "  async function sendCallback(user, accessToken) \x7b\n"
  ++ "    var userData = \x7b\n"
  ++ "      uid: user.uid,\n"
  ++ "      email: user.email,\n"
  ++ "      emailVerified: user.emailVerified,\n"
  ++ "      displayName: user.displayName,\n"
  ++ "      isAnonymous: user.isAnonymous,\n"
  ++ "      photoURL: user.photoURL,\n"
  ++ "      providerData: user.providerData.map(function(p) \x7b\n"
  ++ "        return \x7b\n"
  ++ "          providerId: p.providerId,\n"
  ++ "          uid: p.uid,\n"
  ++ "          displayName: p.displayName,\n"
  ++ "          email: p.email,\n"
  ++ "          phoneNumber: p.phoneNumber,\n"
  ++ "          photoURL: p.photoURL\n"
  ++ "        \x7d;\n"
  ++ "      \x7d),\n"
  ++ "      stsTokenManager: \x7b\n"
  ++ "        refreshToken: user.refreshToken,\n"
  ++ "        accessToken: accessToken,\n"
  ++ "        expirationTime: Date.now() + 3600 * 1000\n"
  ++ "      \x7d,\n"
  ++ "      createdAt: String(new Date(user.metadata.creationTime).getTime()),\n"
  ++ "      lastLoginAt: String(new Date(user.metadata.lastSignInTime).getTime()),\n"
  ++ "      apiKey: config.apiKey,\n"
  ++ "      appName: '[DEFAULT]'\n"
  ++ "    \x7d;\n"
  ++ "\n"
  ++ "    await fetch('/callback', \x7b\n"
  ++ "      method: 'POST',\n"
  ++ "      headers: \x7b 'Content-Type': 'application/json' \x7d,\n"
  ++ "      body: JSON.stringify(userData)\n"
  ++ "    \x7d);\n"
  ++ "\n"
  ++ "    spinnerEl.style.display = 'none';\n"
  ++ "    statusEl.innerHTML = '<span class=\"success\">&#10003; 로그인 완료!</span><br><br>이 창을 닫고 앱으로 돌아가세요.';\n"
  ++ "    setTimeout(function() \x7b window.close(); \x7d, 2000);\n"
  ++ "  \x7d\n"
  ++ "\n"
  ++ "  try \x7b\n"
  ++ "    firebase.initializeApp(config);\n"
  ++ "    var auth = firebase.auth();\n"
  ++ "    var provider = new firebase.auth.GoogleAuthProvider();\n"
  ++ "\n"
  ++ "    if (mode === 'redirect') \x7b\n"
  ++ "      // 모바일: signInWithRedirect 방식\n"
  ++ "      // 먼저 리다이렉트 결과가 있는지 확인\n"
  ++ "      statusEl.textContent = '로그인 정보를 확인하는 중...';\n"
  ++ "      var result = null;\n"
  ++ "      try \x7b\n"
  ++ "        result = await auth.getRedirectResult();\n"
  ++ "      \x7d catch(e) \x7b\n"
  ++ "        result = null;\n"
  ++ "      \x7d\n"
  ++ "\n"
  ++ "      if (result && result.user) \x7b\n"
  ++ "        // 리다이렉트 후 로그인 성공\n"
  ++ "        statusEl.textContent = '인증 정보를 앱으로 전달하는 중...';\n"
  ++ "        var accessToken = await result.user.getIdToken(true);\n"
  ++ "        await sendCallback(result.user, accessToken);\n"
  ++ "      \x7d else \x7b\n"
  ++ "        // 리다이렉트 시작 (Google 로그인 페이지로 이동)\n"
  ++ "        statusEl.textContent = 'Google 로그인 페이지로 이동 중...';\n"
  ++ "        await auth.signInWithRedirect(provider);\n"
  ++ "        // 이후 Google 인증 완료 시 이 페이지로 다시 돌아옴\n"
  ++ "      \x7d\n"
  ++ "\n"
  ++ "    \x7d else \x7b\n"
  ++ "      // 데스크톱: signInWithPopup 방식\n"
  ++ "      statusEl.textContent = '팝업 창에서 Google 계정을 선택해주세요';\n"
  ++ "      var result = await auth.signInWithPopup(provider);\n"
  ++ "      var accessToken = await result.user.getIdToken(true);\n"
  ++ "      await sendCallback(result.user, accessToken);\n"
  ++ "    \x7d\n"
  ++ "\n"
  ++ "  \x7d catch (err) \x7b\n"
  ++ "    spinnerEl.style.display = 'none';\n"
  ++ "    statusEl.textContent = '';\n"
  ++ "    errorEl.textContent = '로그인 실패: ' + (err.message || String(err));\n"
  ++ "    console.error(err);\n"
  ++ "  \x7d\n"
  ++ "\x7d)();\n"
  ++ "</script>\n"
  ++ "</body>\n"
  ++ "</html>"

/-- `LOGIN_HTML` as a character list. -/
def loginHtml : Str := str loginHtmlStr

/-- `SUCCESS_HTML`: the fixed callback acknowledgement body. -/
def successHtml : Str := str "\x7b\"ok\":true\x7d"

/-! ### `send_response` (source lines 136-143) -/

/-- The response text composed by `send_response`; `body.len()` in the source
is the UTF-8 byte length of the body, `utf8Len body` here. -/
def sendResponse (status ct body : Str) : Str :=
  str "HTTP/1.1 " ++ status ++ str "\r\nContent-Type: " ++ ct ++
    str "; charset=utf-8\r\nContent-Length: " ++ str (toString (utf8Len body)) ++
    str "\r\nConnection: close\r\nAccess-Control-Allow-Origin: *\r\nAccess-Control-Allow-Methods: POST, GET, OPTIONS\r\nAccess-Control-Allow-Headers: Content-Type\r\n\r\n" ++
    body

/-! ### `read_request` (source lines 145-177) -/

/-- One socket read result: `none` = `Err(_)`, `some []` = `Ok(0)` (peer
closed), `some bs` = `Ok(n)` delivering exactly the bytes `bs` (at most 4096
of them in the real program, which reads through a 4096-byte buffer). -/
abbrev ReadResult := Option (List Nat)

/-- `headers.lines().find(|l| l.to_lowercase().starts_with("content-length:"))`. -/
def clLine (headers : Str) : Option Str :=
  (rustLines headers).find? (fun l => (str "content-length:").isPrefixOf (lowerStr l))

/-- `cl_line.split(':').nth(1).unwrap_or("0").trim().parse::<usize>()`. -/
def clValue (line : Str) : Option Nat :=
  parseUsize (trimStr (((splitOnChar ':' line).get? 1).getD (str "0")))

/-- The accumulation loop of `read_request`, starting from buffer `buf` and
consuming the stream of read results.  After each successful read the whole
buffer is decoded lossily and searched for the blank line; `utf8Len pre` is
`header_end` (a byte index into the decoded string, as in the source), and
the stop condition compares against the RAW buffer length, as the source
does.  An exhausted stream behaves like `Ok(0)`. -/
def readLoop : List Nat → List ReadResult → List Nat
  | buf, [] => buf
  | buf, none :: _ => buf
  | buf, some [] :: _ => buf
  | buf, some chunk :: rest =>
    let buf2 := buf ++ chunk
    match splitSep (decodeUtf8Lossy buf2) with
    | some (pre, _) =>
      match clLine pre with
      | some line =>
        match clValue line with
        | some cl => if utf8Len pre + 4 + cl ≤ listLen 0 buf2 then buf2 else readLoop buf2 rest
        | none => buf2
      | none => buf2
    | none => if 65536 < listLen 0 buf2 then buf2 else readLoop buf2 rest

/-- `read_request`: accumulate, then return
`String::from_utf8_lossy(&buf).to_string()`. -/
def readRequest (reads : List ReadResult) : Str := decodeUtf8Lossy (readLoop [] reads)

/-! ### Per-connection dispatch (source lines 189-213) -/

/-- `request.lines().next().unwrap_or("").split_whitespace().next().unwrap_or("")`. -/
def methodOf (r : Str) : Str := (splitWs (firstLine r)).headD []

/-- `first_line.split_whitespace().nth(1).unwrap_or("/")`. -/
def pathOf (r : Str) : Str := ((splitWs (firstLine r)).get? 1).getD (str "/")

/-- The callback body extraction: the text after the first blank line
(`request[pos + 4..]`), or the empty string when there is none. -/
def bodyOf (r : Str) : Str :=
  match splitSep r with
  | some (_, post) => post
  | none => []

/-- What handling one request does: the response written to the socket, the
payload emitted to the host (if any), and whether the loop breaks. -/
structure HandleResult where
  response : Str
  emitted : Option Str
  brk : Bool
  deriving DecidableEq

/-- The dispatch on `method` and `path` performed for one accepted
connection. -/
def handleRequest (r : Str) : HandleResult :=
  if methodOf r = str "OPTIONS" then
    ⟨sendResponse (str "204 No Content") (str "text/plain") [], none, false⟩
  else if methodOf r = str "POST" ∧ (str "/callback").isPrefixOf (pathOf r) then
    ⟨sendResponse (str "200 OK") (str "application/json") successHtml, some (bodyOf r), true⟩
  else if pathOf r = str "/favicon.ico" then
    ⟨sendResponse (str "204 No Content") (str "text/plain") [], none, false⟩
  else
    ⟨sendResponse (str "200 OK") (str "text/html") loginHtml, none, false⟩

/-! ### The bounded accept loop (source lines 184-216) -/

/-- One observable action of the background worker, in order. -/
inductive Event where
  | wrote (response : Str)
  | emit (payload : Str)
  deriving DecidableEq

/-- One `listener.accept()` outcome: `none` = `Err(_)` (swallowed), `some
reads` = an accepted connection whose socket yields these read results. -/
abbrev AcceptEvent := Option (List ReadResult)

/-- `for _ in 0..20 { if let Ok((mut stream, _)) = listener.accept() ... }`:
the worker's trace of responses written and payloads emitted.  The first
argument is the remaining iteration budget (20 at spawn); the response is
written before the emission, and the loop breaks right after a successful
callback. -/
def acceptLoop : Nat → List AcceptEvent → List Event
  | 0, _ => []
  | _ + 1, [] => []
  | n + 1, none :: evs => acceptLoop n evs
  | n + 1, some reads :: evs =>
    let h := handleRequest (readRequest reads)
    let es := Event.wrote h.response ::
      (match h.emitted with | some p => [Event.emit p] | none => [])
    if h.brk then es else es ++ acceptLoop n evs

/-! ### `start_oauth_server` (source lines 179-219) -/

/-- `start_oauth_server`, with the OS abstracted: `L` is the listener handle
type, `E` the OS error type with its `to_string` as `toS`; `bind` and
`localAddr` are the outcomes of `TcpListener::bind` and `local_addr`; and
`conns` is the stream of accept outcomes the spawned worker will see.  On
success the command returns the port read back from `local_addr` (`.2`)
together with the background trace; either failure aborts with the
stringified OS error. -/
def startOauthServer {L E : Type} (toS : E → String)
    (bind : String → Except E L) (localAddr : L → Except E (String × Nat))
    (conns : List AcceptEvent) : Except String (Nat × List Event) :=
  match bind "127.0.0.1:0" with
  | .error e => .error (toS e)
  | .ok listener =>
    match localAddr listener with
    | .error e => .error (toS e)
    | .ok addr => .ok (addr.2, acceptLoop 20 conns)

/-! ### Derived response values and client-side extraction -/

/-- The `204 No Content` response (CORS preflight and favicon branches). -/
def resp204 : Str := sendResponse (str "204 No Content") (str "text/plain") []

/-- The callback acknowledgement response. -/
def ackResponse : Str := sendResponse (str "200 OK") (str "application/json") successHtml

/-- The login page response. -/
def loginResponse : Str := sendResponse (str "200 OK") (str "text/html") loginHtml

/-- The part of a response before the first blank line, as a client parses it. -/
def respHeaders (resp : Str) : Str := ((splitSep resp).map Prod.fst).getD []

/-- The transmitted body of a response: the part after the first blank line. -/
def respBody (resp : Str) : Str := ((splitSep resp).map Prod.snd).getD []

/-- Declared `Content-Length` of a response, extracted the way a client
would: the value of the (case-insensitive) `Content-Length` line of the
header section. -/
def declaredCL (resp : Str) : Option Nat :=
  (splitSep resp).bind fun p => (clLine p.1).bind clValue

/-- The three permissive CORS headers and `Connection: close` all occur in
`hdrs`. -/
def corsAndClose (hdrs : Str) : Prop :=
  str "Access-Control-Allow-Origin: *" <:+: hdrs ∧
  str "Access-Control-Allow-Methods: POST, GET, OPTIONS" <:+: hdrs ∧
  str "Access-Control-Allow-Headers: Content-Type" <:+: hdrs ∧
  str "Connection: close" <:+: hdrs

instance (hdrs : Str) : Decidable (corsAndClose hdrs) := by
  unfold corsAndClose; infer_instance

/-! ### Dispatch case lemmas -/

theorem handleRequest_options (r : Str) (h : methodOf r = str "OPTIONS") :
    handleRequest r = ⟨resp204, none, false⟩ := by
  simp [handleRequest, h, resp204]

theorem handleRequest_callback (r : Str) (h1 : methodOf r = str "POST")
    (h2 : (str "/callback").isPrefixOf (pathOf r) = true) :
    handleRequest r = ⟨ackResponse, some (bodyOf r), true⟩ := by
  have hno : ¬ methodOf r = str "OPTIONS" := by rw [h1]; decide
  simp only [handleRequest]
  rw [if_neg hno, if_pos (⟨h1, h2⟩ : methodOf r = str "POST" ∧ _)]
  rfl

theorem handleRequest_favicon (r : Str) (h1 : methodOf r ≠ str "OPTIONS")
    (h2 : ¬(methodOf r = str "POST" ∧ (str "/callback").isPrefixOf (pathOf r) = true))
    (h3 : pathOf r = str "/favicon.ico") :
    handleRequest r = ⟨resp204, none, false⟩ := by
  simp only [handleRequest]
  rw [if_neg h1, if_neg h2, if_pos h3]
  rfl

theorem handleRequest_login (r : Str) (h1 : methodOf r ≠ str "OPTIONS")
    (h2 : ¬(methodOf r = str "POST" ∧ (str "/callback").isPrefixOf (pathOf r) = true))
    (h3 : pathOf r ≠ str "/favicon.ico") :
    handleRequest r = ⟨loginResponse, none, false⟩ := by
  simp only [handleRequest]
  rw [if_neg h1, if_neg h2, if_neg h3]
  rfl

/-! ### Structural lemmas for evaluating the long login response -/

theorem str_append (a b : String) : str (a ++ b) = str a ++ str b := by
  cases a; cases b; rfl

theorem utf8Len_append (a b : Str) : utf8Len (a ++ b) = utf8Len a + utf8Len b := by
  simp [utf8Len]

theorem utf8Len_loginHtml : utf8Len loginHtml = 4973 := by
  simp only [loginHtml, loginHtmlStr, str_append, utf8Len_append]
  decide

theorem length_loginHtml : loginHtml.length = 4657 := by
  simp only [loginHtml, loginHtmlStr, str_append, List.length_append]
  decide

theorem listLen_eq : ∀ (xs : List Nat) (acc : Nat), listLen acc xs = acc + xs.length
  | [], acc => by simp [listLen]
  | x :: xs, acc => by
    have h : listLen acc (x :: xs) = listLen (acc + 1) xs := rfl
    rw [h, listLen_eq xs (acc + 1)]
    simp only [List.length_cons]
    omega

theorem splitSepAux_concat (a b : Str) :
    ∀ acc : Str,
      (∀ n, n < a.length → crlf2.isPrefixOf (a.drop n ++ (crlf2 ++ b)) = false) →
      splitSepAux acc (a ++ (crlf2 ++ b)) = some (acc.reverse ++ a, b) := by
  induction a with
  | nil =>
    intro acc _
    simp [splitSepAux, crlf2]
  | cons c a' ih =>
    intro acc h
    have h0 : crlf2.isPrefixOf (c :: (a' ++ (crlf2 ++ b))) = false := by
      have := h 0 (by simp)
      simpa using this
    have hrec := ih (c :: acc) (fun n hn => by
      have := h (n + 1) (by simpa using Nat.succ_lt_succ hn)
      simpa using this)
    calc splitSepAux acc ((c :: a') ++ (crlf2 ++ b))
        = splitSepAux (c :: acc) (a' ++ (crlf2 ++ b)) := by
          rw [List.cons_append]
          simp only [splitSepAux, List.append_eq]
          simp [h0]
      _ = some ((c :: acc).reverse ++ a', b) := hrec
      _ = some (acc.reverse ++ (c :: a'), b) := by simp

theorem splitSep_concat (a b : Str)
    (h : ∀ n, n < a.length → crlf2.isPrefixOf (a.drop n ++ (crlf2 ++ b)) = false) :
    splitSep (a ++ (crlf2 ++ b)) = some (a, b) := by
  simpa [splitSep] using splitSepAux_concat a b [] h

/-- The header section of the login response, with the Content-Length the
listener computes (4973 bytes for the 4657-character page). -/
def loginHdr : Str :=
  str "HTTP/1.1 200 OK\r\nContent-Type: text/html; charset=utf-8\r\nContent-Length: 4973\r\nConnection: close\r\nAccess-Control-Allow-Origin: *\r\nAccess-Control-Allow-Methods: POST, GET, OPTIONS\r\nAccess-Control-Allow-Headers: Content-Type"

theorem loginResponse_eq : loginResponse = loginHdr ++ (crlf2 ++ loginHtml) := by
  unfold loginResponse sendResponse
  rw [utf8Len_loginHtml]
  rw [show (toString (4973 : Nat) : String) = "4973" from rfl]
  simp only [← List.append_assoc]
  congr 1

theorem splitSep_loginResponse : splitSep loginResponse = some (loginHdr, loginHtml) := by
  rw [loginResponse_eq]
  exact splitSep_concat _ _ (by decide)

/-- C3: for each of the four responses the listener writes (204 preflight,
204 favicon — the same response text — 200 login page, 200 callback
acknowledgement), the declared `Content-Length` equals the exact byte count
of the transmitted body (for the login page: 4973 bytes, not its 4657
characters), and the header section carries the three permissive CORS
headers and `Connection: close`. -/
theorem contentLength_exact_and_cors_present :
    (respBody resp204 = [] ∧ declaredCL resp204 = some (utf8Len (respBody resp204)) ∧
      corsAndClose (respHeaders resp204)) ∧
    (respBody loginResponse = loginHtml ∧
      declaredCL loginResponse = some (utf8Len (respBody loginResponse)) ∧
      corsAndClose (respHeaders loginResponse)) ∧
    (respBody ackResponse = successHtml ∧
      declaredCL ackResponse = some (utf8Len (respBody ackResponse)) ∧
      corsAndClose (respHeaders ackResponse)) ∧
    utf8Len loginHtml = 4973 ∧ loginHtml.length = 4657 := by
  have h4 := splitSep_loginResponse
  have hb : respBody loginResponse = loginHtml := by simp [respBody, h4]
  refine ⟨⟨by decide, by decide, by decide⟩, ⟨hb, ?_, ?_⟩, ⟨by decide, by decide, by decide⟩,
    utf8Len_loginHtml, length_loginHtml⟩
  · rw [hb, utf8Len_loginHtml,
      show declaredCL loginResponse = (clLine loginHdr).bind clValue from by
        simp [declaredCL, h4]]
    decide
  · rw [show respHeaders loginResponse = loginHdr from by simp [respHeaders, h4]]
    decide

/-- C10: other than the `OPTIONS` check and the `POST`-to-`/callback` check,
dispatch never looks at the method: any non-`OPTIONS`, non-callback request
for `/favicon.ico` (whatever its method, `POST` included) gets the empty 204
response, and every other such request gets the 200 login page. -/
theorem dispatch_ignores_method :
    (∀ r : Str, methodOf r ≠ str "OPTIONS" →
      ¬(methodOf r = str "POST" ∧ (str "/callback").isPrefixOf (pathOf r) = true) →
      handleRequest r =
        if pathOf r = str "/favicon.ico" then ⟨resp204, none, false⟩
        else ⟨loginResponse, none, false⟩) ∧
    handleRequest (str "POST /favicon.ico HTTP/1.1\r\n\r\n") = ⟨resp204, none, false⟩ ∧
    handleRequest (str "GET /callback HTTP/1.1\r\n\r\n") = ⟨loginResponse, none, false⟩ := by
  refine ⟨fun r h1 h2 => ?_,
    handleRequest_favicon _ (by decide) (by decide) (by decide),
    handleRequest_login _ (by decide) (by decide) (by decide)⟩
  by_cases h3 : pathOf r = str "/favicon.ico"
  · rw [if_pos h3]; exact handleRequest_favicon r h1 h2 h3
  · rw [if_neg h3]; exact handleRequest_login r h1 h2 h3

/-- C10 witness: the general part at `PUT /favicon.ico`. -/
theorem dispatch_ignores_method_witness :
    handleRequest (str "PUT /favicon.ico HTTP/1.1\r\n\r\n") =
      if pathOf (str "PUT /favicon.ico HTTP/1.1\r\n\r\n") = str "/favicon.ico" then
        (⟨resp204, none, false⟩ : HandleResult)
      else ⟨loginResponse, none, false⟩ :=
  dispatch_ignores_method.1 (str "PUT /favicon.ico HTTP/1.1\r\n\r\n") (by decide) (by decide)

/-- C7: every `OPTIONS` request, whatever its path, gets the 204 response,
whose body is empty and whose headers carry the three CORS headers; handling
it does not break the accept loop: the remaining budget still serves the
following connections. -/
theorem options_preflight :
    (∀ r : Str, methodOf r = str "OPTIONS" → handleRequest r = ⟨resp204, none, false⟩) ∧
    respBody resp204 = [] ∧ corsAndClose (respHeaders resp204) ∧
    (str "HTTP/1.1 204 No Content\r\n").isPrefixOf resp204 = true ∧
    (∀ (n : Nat) (reads : List ReadResult) (evs : List AcceptEvent),
      methodOf (readRequest reads) = str "OPTIONS" →
      acceptLoop (n + 1) (some reads :: evs) = .wrote resp204 :: acceptLoop n evs) := by
  refine ⟨handleRequest_options, by decide, by decide, by decide, fun n reads evs h => ?_⟩
  simp [acceptLoop, handleRequest_options _ h]

/-- C7 witness: an `OPTIONS /anything` connection followed by a favicon
connection; the preflight is answered and the next request is still served. -/
theorem options_preflight_witness :
    handleRequest (str "OPTIONS /anything HTTP/1.1\r\n\r\n") = ⟨resp204, none, false⟩ ∧
    acceptLoop 2 [some [some (utf8Encode (str "OPTIONS /anything HTTP/1.1\r\n\r\n"))],
        some [some (utf8Encode (str "GET /favicon.ico HTTP/1.1\r\n\r\n"))]] =
      .wrote resp204 ::
        acceptLoop 1 [some [some (utf8Encode (str "GET /favicon.ico HTTP/1.1\r\n\r\n"))]] :=
  ⟨options_preflight.1 _ (by decide),
   options_preflight.2.2.2.2 1 _ _ (by decide)⟩

/-- C8 counterexample: the request `"OPTIONS\r\n\r\n"` has a method token
but no path token, yet it is answered by the 204 preflight branch, not by
the login page branch the claim requires. -/
theorem malformed_request_counterexample :
    (splitWs (firstLine (str "OPTIONS\r\n\r\n"))).length = 1 ∧
    handleRequest (str "OPTIONS\r\n\r\n") = ⟨resp204, none, false⟩ ∧
    handleRequest (str "OPTIONS\r\n\r\n") ≠ ⟨loginResponse, none, false⟩ := by
  decide

/-- C8 amended: missing first-line tokens default to the empty method and
the `/` path, and dispatch then proceeds normally on the defaults: a request
with no tokens is served the login page, and a request with one token is
served the login page unless that token is `OPTIONS`, which is answered by
the preflight branch. -/
theorem malformed_request_defaults :
    (∀ r : Str, splitWs (firstLine r) = [] →
      methodOf r = [] ∧ pathOf r = str "/" ∧
        handleRequest r = ⟨loginResponse, none, false⟩) ∧
    (∀ (r t : Str), splitWs (firstLine r) = [t] →
      methodOf r = t ∧ pathOf r = str "/" ∧
      (t ≠ str "OPTIONS" → handleRequest r = ⟨loginResponse, none, false⟩) ∧
      (t = str "OPTIONS" → handleRequest r = ⟨resp204, none, false⟩)) := by
  constructor
  · intro r h
    have hm : methodOf r = [] := by simp [methodOf, h]
    have hp : pathOf r = str "/" := by simp [pathOf, h]
    refine ⟨hm, hp, handleRequest_login r ?_ ?_ ?_⟩
    · rw [hm]; decide
    · rw [hm, hp]; decide
    · rw [hp]; decide
  · intro r t h
    have hm : methodOf r = t := by simp [methodOf, h]
    have hp : pathOf r = str "/" := by simp [pathOf, h]
    refine ⟨hm, hp, fun hne => handleRequest_login r ?_ ?_ ?_, fun heq => ?_⟩
    · rw [hm]; exact hne
    · rw [hm, hp]
      rintro ⟨-, hpre⟩
      revert hpre; decide
    · rw [hp]; decide
    · exact handleRequest_options r (hm.trans heq)

/-- C8 amended witness: the empty request and the request `"POST"` are both
served the login page. -/
theorem malformed_request_defaults_witness :
    handleRequest (str "") = ⟨loginResponse, none, false⟩ ∧
    handleRequest (str "POST") = ⟨loginResponse, none, false⟩ :=
  ⟨(malformed_request_defaults.1 (str "") (by decide)).2.2,
   ((malformed_request_defaults.2 (str "POST") (str "POST") (by decide)).2.2.1 (by decide))⟩

/-! ### Symbolic evaluation lemmas for large buffers -/

theorem decLoop_acc : ∀ (bs : List Nat) (st : DecState) (acc : List Char),
    decLoop st acc bs = acc.reverse ++ decLoop st [] bs
  | [], st, acc => by
    cases st <;> simp [decLoop]
  | b :: bs, st, acc => by
    simp only [decLoop]
    rcases h : decStep st b with ⟨st2, cs⟩
    rw [decLoop_acc bs st2 (cs ++ acc), decLoop_acc bs st2 (cs ++ [])]
    simp

theorem decLoop_ascii : ∀ (bs : List Nat) (acc : List Char),
    (∀ b ∈ bs, b < 0x80) →
    decLoop .start acc bs = acc.reverse ++ bs.map Char.ofNat
  | [], acc, _ => by simp [decLoop]
  | b :: bs, acc, h => by
    have hb : b < 0x80 := h b (by simp)
    have hstep : decStep DecState.start b = (DecState.start, [Char.ofNat b]) := by
      simp [decStep, startByte, hb]
    simp only [decLoop, hstep, List.singleton_append]
    rw [decLoop_ascii bs (Char.ofNat b :: acc) (fun x hx => h x (by simp [hx]))]
    simp

/-- On pure ASCII input, lossy decoding is the bytewise conversion. -/
theorem decode_ascii (bs : List Nat) (h : ∀ b ∈ bs, b < 0x80) :
    decodeUtf8Lossy bs = bs.map Char.ofNat := by
  simpa [decodeUtf8Lossy] using decLoop_ascii bs [] h

theorem isPrefixOf_append_left (p xs ys : Str) (h : p.length ≤ xs.length) :
    p.isPrefixOf (xs ++ ys) = p.isPrefixOf xs := by
  induction p generalizing xs with
  | nil => simp [List.isPrefixOf]
  | cons a p ih =>
    cases xs with
    | nil => simp at h
    | cons x xs =>
      simp only [List.cons_append, List.isPrefixOf, List.append_eq]
      rw [ih xs (by simpa using h)]

theorem splitSepAux_no_cr : ∀ (s : Str) (acc : Str),
    (∀ c ∈ s, c ≠ '\r') → splitSepAux acc s = none
  | [], acc, _ => rfl
  | c :: cs, acc, h => by
    have hc : c ≠ '\r' := h c (by simp)
    have hp : crlf2.isPrefixOf (c :: cs) = false := by
      simp only [crlf2, List.isPrefixOf, Bool.and_eq_false_iff]
      left
      simpa using fun he => hc he.symm
    simp only [splitSepAux, hp]
    exact splitSepAux_no_cr cs (c :: acc) (fun x hx => h x (by simp [hx]))

/-- A string with no carriage return has no header separator. -/
theorem splitSep_no_cr (s : Str) (h : ∀ c ∈ s, c ≠ '\r') : splitSep s = none :=
  splitSepAux_no_cr s [] h

/-- One successful, nonempty read: the step the reader takes, with the raw
buffer length written as `List.length`. -/
theorem readLoop_cons (buf : List Nat) (c : Nat) (cs : List Nat) (rest : List ReadResult) :
    readLoop buf (some (c :: cs) :: rest) =
      (match splitSep (decodeUtf8Lossy (buf ++ (c :: cs))) with
       | some (pre, _) =>
         match clLine pre with
         | some line =>
           match clValue line with
           | some cl =>
             if utf8Len pre + 4 + cl ≤ (buf ++ (c :: cs)).length then buf ++ (c :: cs)
             else readLoop (buf ++ (c :: cs)) rest
           | none => buf ++ (c :: cs)
         | none => buf ++ (c :: cs)
       | none =>
         if 65536 < (buf ++ (c :: cs)).length then buf ++ (c :: cs)
         else readLoop (buf ++ (c :: cs)) rest) := by
  have hl : listLen 0 (buf ++ (c :: cs)) = (buf ++ (c :: cs)).length := by
    rw [listLen_eq]; omega
  simp only [readLoop, hl]

/-- C5: the reader stops exactly by the framing algorithm.  A read error or
a zero-byte read ends the phase with the accumulated buffer; once the blank
line is found, a missing `Content-Length` line or a malformed value stops at
the header boundary; a parsed value `cl` makes the reader stop as soon as
the raw buffer holds at least `header_end + 4 + cl` bytes (`header_end`
being the byte index of the blank line) and keep reading otherwise. -/
theorem read_framing :
    (∀ (buf : List Nat) (rest : List ReadResult), readLoop buf (none :: rest) = buf) ∧
    (∀ (buf : List Nat) (rest : List ReadResult), readLoop buf (some [] :: rest) = buf) ∧
    (∀ (buf chunk : List Nat) (rest : List ReadResult) (pre post : Str), chunk ≠ [] →
      splitSep (decodeUtf8Lossy (buf ++ chunk)) = some (pre, post) →
      clLine pre = none →
      readLoop buf (some chunk :: rest) = buf ++ chunk) ∧
    (∀ (buf chunk : List Nat) (rest : List ReadResult) (pre post line : Str), chunk ≠ [] →
      splitSep (decodeUtf8Lossy (buf ++ chunk)) = some (pre, post) →
      clLine pre = some line → clValue line = none →
      readLoop buf (some chunk :: rest) = buf ++ chunk) ∧
    (∀ (buf chunk : List Nat) (rest : List ReadResult) (pre post line : Str) (cl : Nat),
      chunk ≠ [] →
      splitSep (decodeUtf8Lossy (buf ++ chunk)) = some (pre, post) →
      clLine pre = some line → clValue line = some cl →
      utf8Len pre + 4 + cl ≤ (buf ++ chunk).length →
      readLoop buf (some chunk :: rest) = buf ++ chunk) ∧
    (∀ (buf chunk : List Nat) (rest : List ReadResult) (pre post line : Str) (cl : Nat),
      chunk ≠ [] →
      splitSep (decodeUtf8Lossy (buf ++ chunk)) = some (pre, post) →
      clLine pre = some line → clValue line = some cl →
      (buf ++ chunk).length < utf8Len pre + 4 + cl →
      readLoop buf (some chunk :: rest) = readLoop (buf ++ chunk) rest) := by
  refine ⟨fun buf rest => rfl, fun buf rest => rfl, ?_, ?_, ?_, ?_⟩
  · rintro buf (_ | ⟨c, cs⟩) rest pre post hne hsep hcl
    · exact absurd rfl hne
    · rw [readLoop_cons]; simp [hsep, hcl]
  · rintro buf (_ | ⟨c, cs⟩) rest pre post line hne hsep hcl hval
    · exact absurd rfl hne
    · rw [readLoop_cons]; simp [hsep, hcl, hval]
  · rintro buf (_ | ⟨c, cs⟩) rest pre post line cl hne hsep hcl hval hlen
    · exact absurd rfl hne
    · rw [readLoop_cons]; simp [hsep, hcl, hval, hlen]
      intro hcon
      exfalso
      simp [List.length_append] at hlen
      omega
  · rintro buf (_ | ⟨c, cs⟩) rest pre post line cl hne hsep hcl hval hlen
    · exact absurd rfl hne
    · have hnot : ¬ (utf8Len pre + 4 + cl ≤ (buf ++ (c :: cs)).length) := by omega
      rw [readLoop_cons]; simp [hsep, hcl, hval, hnot]
      intro hcon
      exfalso
      simp [List.length_append] at hnot
      omega

/-- C5 witness: a body completed by a second read, then a stop that ignores
the rest of the stream; and an error read returning the buffer unchanged. -/
theorem read_framing_witness :
    readLoop (utf8Encode (str "POST / HTTP/1.1\r\nContent-Length: 4\r\n\r\n"))
        (some (utf8Encode (str "BODY")) :: [none]) =
      utf8Encode (str "POST / HTTP/1.1\r\nContent-Length: 4\r\n\r\n") ++ utf8Encode (str "BODY") ∧
    readLoop (utf8Encode (str "GET")) (none :: []) = utf8Encode (str "GET") :=
  ⟨read_framing.2.2.2.2.1 (utf8Encode (str "POST / HTTP/1.1\r\nContent-Length: 4\r\n\r\n"))
      (utf8Encode (str "BODY")) [none]
      (str "POST / HTTP/1.1\r\nContent-Length: 4") (str "BODY") (str "Content-Length: 4") 4
      (by decide) (by decide) (by decide) (by decide) (by decide),
   read_framing.1 _ []⟩

/-! ### C2: the 64 KiB ceiling -/

/-- 42 ASCII bytes of headers declaring a 70000-byte body. -/
def c2hdr : List Nat := utf8Encode (str "POST / HTTP/1.1\r\nContent-Length: 70000\r\n\r\n")

/-- The header section of `c2hdr` as decoded text. -/
def c2pre : Str := str "POST / HTTP/1.1\r\nContent-Length: 70000"

/-- A reader buffer beyond the 64 KiB ceiling: the 42 header bytes plus
65500 body bytes accumulated so far (65542 bytes in total). -/
def c2big : List Nat := c2hdr ++ List.replicate 65500 97

theorem c2hdr_length : c2hdr.length = 42 := by decide

theorem c2big_length : c2big.length = 65542 := by
  rw [c2big, List.length_append, List.length_replicate, c2hdr_length]

/-- C2 counterexample: with a valid declared `Content-Length` of 70000 and
65542 bytes already accumulated — past the 64 KiB ceiling — the reader does
not stop: it consumes a further read and returns a strictly larger buffer.
The ceiling is never consulted once the blank line has been found with a
parseable `Content-Length`. -/
theorem ceiling_counterexample :
    65536 < c2big.length ∧
    readLoop c2big [some [97]] = c2big ++ [97] ∧
    readLoop c2big [some [97]] ≠ c2big := by
  have hhdr : List.map Char.ofNat c2hdr = c2pre ++ crlf2 := by decide
  have hascii : ∀ b ∈ c2big ++ [97], b < 0x80 := by
    rw [c2big, List.append_assoc, List.forall_mem_append]
    refine ⟨by decide, ?_⟩
    rw [List.forall_mem_append]
    refine ⟨fun b hb => ?_, by decide⟩
    rw [List.eq_of_mem_replicate hb]
    norm_num
  have hdec : decodeUtf8Lossy (c2big ++ [97]) =
      c2pre ++ (crlf2 ++ ((List.replicate 65500 97).map Char.ofNat ++ [Char.ofNat 97])) := by
    rw [decode_ascii _ hascii, c2big, List.append_assoc, List.map_append, List.map_append,
      hhdr, List.append_assoc]
    rfl
  have hfalse : ∀ n, n < c2pre.length → crlf2.isPrefixOf (c2pre.drop n ++ crlf2) = false := by
    decide
  have hB : ∀ n, n < c2pre.length →
      crlf2.isPrefixOf (c2pre.drop n ++
        (crlf2 ++ ((List.replicate 65500 97).map Char.ofNat ++ [Char.ofNat 97]))) = false := by
    intro n hn
    rw [← List.append_assoc,
      isPrefixOf_append_left _ _ _ (by simp [crlf2, List.length_append])]
    exact hfalse n hn
  have hsep : splitSep (decodeUtf8Lossy (c2big ++ [97])) =
      some (c2pre, (List.replicate 65500 97).map Char.ofNat ++ [Char.ofNat 97]) := by
    rw [hdec]
    exact splitSep_concat _ _ hB
  have hcl : clLine c2pre = some (str "Content-Length: 70000") := by decide
  have hval : clValue (str "Content-Length: 70000") = some 70000 := by decide
  have hlen : (c2big ++ [97]).length = 65543 := by
    rw [List.length_append, c2big_length]
    rfl
  have hnot : ¬ (utf8Len c2pre + 4 + 70000 ≤ (c2big ++ [97]).length) := by
    rw [hlen, show utf8Len c2pre = 38 from by decide]
    omega
  have h1 : readLoop c2big [some [97]] = c2big ++ [97] := by
    rw [readLoop_cons]
    simp only [hsep, hcl, hval]
    rw [if_neg hnot]
    rfl
  refine ⟨by rw [c2big_length]; omega, h1, ?_⟩
  rw [h1]
  intro heq
  have := congrArg List.length heq
  rw [hlen, c2big_length] at this
  omega

/-- C2 amended: the 64 KiB ceiling is consulted only while the blank line
terminating the headers has not yet been found: if a successful read leaves
more than 65536 bytes in the buffer and the decoded buffer still has no
blank line, the reader stops with that buffer, ignoring the rest of the
stream.  (Once a blank line with a valid `Content-Length` is present, the
reader instead keeps reading until the declared body is complete, with no
ceiling — see the counterexample.) -/
theorem ceiling_only_before_separator :
    ∀ (buf chunk : List Nat) (rest : List ReadResult), chunk ≠ [] →
      splitSep (decodeUtf8Lossy (buf ++ chunk)) = none →
      65536 < (buf ++ chunk).length →
      readLoop buf (some chunk :: rest) = buf ++ chunk := by
  rintro buf (_ | ⟨c, cs⟩) rest hne hsep hlen
  · exact absurd rfl hne
  · rw [readLoop_cons]
    simp only [hsep]
    rw [if_pos (by simpa using hlen)]

/-- C2 amended witness: one read of 65537 separator-free bytes; the reader
stops at once with those bytes, ignoring the rest of the stream. -/
theorem ceiling_only_before_separator_witness :
    readLoop [] [some (List.replicate 65537 97), none] = [] ++ List.replicate 65537 97 :=
  ceiling_only_before_separator [] (List.replicate 65537 97) [none]
    (by
      intro h
      rw [List.replicate_eq_nil_iff] at h
      omega)
    (by
      rw [List.nil_append,
        decode_ascii _ (fun b hb => by rw [List.eq_of_mem_replicate hb]; norm_num),
        List.map_replicate]
      exact splitSep_no_cr _ (fun c hc => by rw [List.eq_of_mem_replicate hc]; decide))
    (by rw [List.nil_append, List.length_replicate]; omega)

/-! ### C1: the callback POST -/

/-- The claim's example request: a callback POST with `Content-Length: 13`
and body `{"uid":"abc"}`, as raw bytes. -/
def exampleCallbackBytes : List Nat :=
  utf8Encode (str "POST /callback HTTP/1.1\r\nContent-Length: 13\r\n\r\n\x7b\"uid\":\"abc\"\x7d")

/-- C1 counterexample: a callback POST whose declared 1-byte body is the
invalid UTF-8 byte 0xFF (the peer then closes).  The forwarded payload is
the replacement character U+FFFD — bytes EF BF BD — not the POSTed byte:
the listener re-encodes the body through lossy UTF-8 decoding instead of
forwarding it byte-for-byte. -/
theorem callback_payload_counterexample :
    (handleRequest (readRequest
        [some (utf8Encode (str "POST /callback HTTP/1.1\r\nContent-Length: 1\r\n\r\n") ++ [0xFF]),
         some []])).emitted = some ['�'] ∧
    utf8Encode ['�'] = [0xEF, 0xBF, 0xBD] ∧
    ([0xEF, 0xBF, 0xBD] : List Nat) ≠ [0xFF] := by
  decide

/-- C1 amended: every POST to a `/callback`-prefixed path is answered
`200 OK`, `application/json`, with body exactly `\x7b"ok":true\x7d` (11 bytes
declared), and the forwarded payload is the text after the first blank line
of the lossily decoded request buffer — byte-for-byte the POSTed body
whenever that body is valid UTF-8, as in the claim's example, whose payload
round-trips exactly (its UTF-8 bytes are precisely the 13 POSTed body
bytes). -/
theorem callback_post_behavior :
    (∀ r : Str, methodOf r = str "POST" →
      (str "/callback").isPrefixOf (pathOf r) = true →
      handleRequest r = ⟨ackResponse, some (bodyOf r), true⟩) ∧
    respBody ackResponse = successHtml ∧
    declaredCL ackResponse = some 11 ∧
    (str "HTTP/1.1 200 OK\r\nContent-Type: application/json").isPrefixOf ackResponse = true ∧
    readRequest [some exampleCallbackBytes] =
      str "POST /callback HTTP/1.1\r\nContent-Length: 13\r\n\r\n\x7b\"uid\":\"abc\"\x7d" ∧
    (handleRequest (readRequest [some exampleCallbackBytes])).emitted =
      some (str "\x7b\"uid\":\"abc\"\x7d") ∧
    exampleCallbackBytes =
      utf8Encode (str "POST /callback HTTP/1.1\r\nContent-Length: 13\r\n\r\n") ++
        [0x7b, 0x22, 0x75, 0x69, 0x64, 0x22, 0x3a, 0x22, 0x61, 0x62, 0x63, 0x22, 0x7d] ∧
    utf8Encode (str "\x7b\"uid\":\"abc\"\x7d") =
      [0x7b, 0x22, 0x75, 0x69, 0x64, 0x22, 0x3a, 0x22, 0x61, 0x62, 0x63, 0x22, 0x7d] := by
  refine ⟨fun r h1 h2 => handleRequest_callback r h1 h2,
    by decide, by decide, by decide, by decide, by decide, by decide, by decide⟩

/-- C1 witness: the universally quantified part at the example request. -/
theorem callback_post_behavior_witness :
    handleRequest (readRequest [some exampleCallbackBytes]) =
      ⟨ackResponse, some (bodyOf (readRequest [some exampleCallbackBytes])), true⟩ :=
  callback_post_behavior.1 _ (by decide) (by decide)

/-! ### C4: the bounded accept loop -/

theorem acceptLoop_take : ∀ (n : Nat) (evs : List AcceptEvent),
    acceptLoop n evs = acceptLoop n (evs.take n)
  | 0, _ => rfl
  | _ + 1, [] => rfl
  | n + 1, none :: evs => by
    simp only [List.take_succ_cons, acceptLoop]
    exact acceptLoop_take n evs
  | n + 1, some reads :: evs => by
    simp only [List.take_succ_cons, acceptLoop]
    rw [acceptLoop_take n evs]

/-- C4: the accept loop consumes at most its 20-iteration budget (accept
outcomes beyond the first 20 are irrelevant); a failed accept is swallowed
and costs one unit of budget; a connection whose dispatch breaks out makes
the loop ignore everything after it; and the break happens exactly for a
POST to a `/callback`-prefixed path. -/
theorem accept_loop_bounded :
    (∀ evs : List AcceptEvent, acceptLoop 20 evs = acceptLoop 20 (evs.take 20)) ∧
    (∀ (n : Nat) (evs : List AcceptEvent),
      acceptLoop (n + 1) (none :: evs) = acceptLoop n evs) ∧
    (∀ (n : Nat) (reads : List ReadResult) (evs : List AcceptEvent),
      (handleRequest (readRequest reads)).brk = true →
      acceptLoop (n + 1) (some reads :: evs) = acceptLoop (n + 1) [some reads]) ∧
    (∀ r : Str, (handleRequest r).brk = true ↔
      methodOf r = str "POST" ∧ (str "/callback").isPrefixOf (pathOf r) = true) := by
  refine ⟨fun evs => acceptLoop_take 20 evs, fun n evs => rfl, ?_, ?_⟩
  · intro n reads evs hbrk
    simp only [acceptLoop, hbrk, if_true]
  · intro r
    constructor
    · intro hbrk
      by_cases h1 : methodOf r = str "OPTIONS"
      · rw [handleRequest_options r h1] at hbrk
        simp at hbrk
      · by_cases h2 : methodOf r = str "POST" ∧ (str "/callback").isPrefixOf (pathOf r) = true
        · exact h2
        · by_cases h3 : pathOf r = str "/favicon.ico"
          · rw [handleRequest_favicon r h1 h2 h3] at hbrk
            simp at hbrk
          · rw [handleRequest_login r h1 h2 h3] at hbrk
            simp at hbrk
    · rintro ⟨h1, h2⟩
      rw [handleRequest_callback r h1 h2]

/-- C4 witness: a successful callback connection makes the loop ignore the
accept outcomes that follow it. -/
theorem accept_loop_bounded_witness :
    acceptLoop 3 (some [some exampleCallbackBytes] :: [none, some [none]]) =
      acceptLoop 3 [some [some exampleCallbackBytes]] :=
  accept_loop_bounded.2.2.1 2 [some exampleCallbackBytes] [none, some [none]] (by decide)

/-! ### C6: the emission happens at most once, after the acknowledgement -/

/-- Whether a trace event is an emission to the host. -/
def isEmit : Event → Bool
  | .emit _ => true
  | .wrote _ => false

/-- Number of emissions in a trace. -/
def emitCount (t : List Event) : Nat := (t.filter isEmit).length

theorem handleRequest_emitted (r p : Str)
    (h : (handleRequest r).emitted = some p) :
    methodOf r = str "POST" ∧ (str "/callback").isPrefixOf (pathOf r) = true ∧
      p = bodyOf r ∧ handleRequest r = ⟨ackResponse, some (bodyOf r), true⟩ := by
  by_cases h1 : methodOf r = str "OPTIONS"
  · rw [handleRequest_options r h1] at h
    simp at h
  · by_cases h2 : methodOf r = str "POST" ∧ (str "/callback").isPrefixOf (pathOf r) = true
    · rw [handleRequest_callback r h2.1 h2.2] at h
      simp only [Option.some.injEq] at h
      exact ⟨h2.1, h2.2, h.symm, handleRequest_callback r h2.1 h2.2⟩
    · by_cases h3 : pathOf r = str "/favicon.ico"
      · rw [handleRequest_favicon r h1 h2 h3] at h
        simp at h
      · rw [handleRequest_login r h1 h2 h3] at h
        simp at h

/-- C6: per session the `oauth-callback` event is emitted at most once; it
is emitted only for a connection whose request is a POST to a
`/callback`-prefixed path, with the raw body as payload; and whenever it is
emitted, it is the last event of the trace, immediately preceded by the
write of the 200 acknowledgement. -/
theorem emit_at_most_once : ∀ (fuel : Nat) (evs : List AcceptEvent),
    emitCount (acceptLoop fuel evs) ≤ 1 ∧
    ∀ p : Str, Event.emit p ∈ acceptLoop fuel evs →
      ∃ (pre : List Event) (reads : List ReadResult),
        some reads ∈ evs ∧
        methodOf (readRequest reads) = str "POST" ∧
        (str "/callback").isPrefixOf (pathOf (readRequest reads)) = true ∧
        p = bodyOf (readRequest reads) ∧
        acceptLoop fuel evs = pre ++ [Event.wrote ackResponse, Event.emit p]
  | 0, evs => by
    constructor
    · simp [acceptLoop, emitCount]
    · intro p hp
      simp [acceptLoop] at hp
  | _ + 1, [] => by
    constructor
    · simp [acceptLoop, emitCount]
    · intro p hp
      simp [acceptLoop] at hp
  | n + 1, none :: evs => by
    have ih := emit_at_most_once n evs
    constructor
    · simpa only [acceptLoop] using ih.1
    · intro p hp
      obtain ⟨pre, reads, hmem, h1, h2, h3, h4⟩ := ih.2 p (by simpa only [acceptLoop] using hp)
      exact ⟨pre, reads, by simp [hmem], h1, h2, h3, by simpa only [acceptLoop] using h4⟩
  | n + 1, some reads :: evs => by
    have ih := emit_at_most_once n evs
    rcases hem : (handleRequest (readRequest reads)).emitted with _ | p0
    · cases hbrk : (handleRequest (readRequest reads)).brk
      · have htr : acceptLoop (n + 1) (some reads :: evs) =
            Event.wrote (handleRequest (readRequest reads)).response :: acceptLoop n evs := by
          simp [acceptLoop, hem, hbrk]
        constructor
        · rw [htr]
          simpa [emitCount, List.filter, isEmit] using ih.1
        · intro p hp
          rw [htr, List.mem_cons] at hp
          rcases hp with hp | hp
          · exact absurd hp (by simp)
          · obtain ⟨pre, reads', hmem, h1, h2, h3, h4⟩ := ih.2 p hp
            refine ⟨Event.wrote (handleRequest (readRequest reads)).response :: pre,
              reads', by simp [hmem], h1, h2, h3, ?_⟩
            rw [htr, h4]
            rfl
      · have htr : acceptLoop (n + 1) (some reads :: evs) =
            [Event.wrote (handleRequest (readRequest reads)).response] := by
          simp [acceptLoop, hem, hbrk]
        constructor
        · rw [htr]
          simp [emitCount, List.filter, isEmit]
        · intro p hp
          rw [htr] at hp
          simp at hp
    · have hh := handleRequest_emitted (readRequest reads) p0 hem
      have htr : acceptLoop (n + 1) (some reads :: evs) =
          [Event.wrote ackResponse, Event.emit (bodyOf (readRequest reads))] := by
        simp [acceptLoop, hh.2.2.2]
      constructor
      · rw [htr]
        simp [emitCount, List.filter, isEmit]
      · intro p hp
        rw [htr] at hp
        simp only [List.mem_cons, List.mem_singleton] at hp
        rcases hp with hp | hp | hp
        · exact absurd hp (by simp)
        · simp only [Event.emit.injEq] at hp
          subst hp
          exact ⟨[], reads, by simp, hh.1, hh.2.1, rfl, by rw [htr]; rfl⟩
        · simp at hp

/-- C6 witness: a session whose first connection is an `OPTIONS` preflight
and whose second is the example callback POST; its trace carries exactly
one emission, whose payload is the raw callback body, and the trace ends
with the acknowledgement write followed by the emission. -/
theorem emit_at_most_once_witness :
    ∃ (pre : List Event) (reads : List ReadResult),
      some reads ∈ [some [some (utf8Encode (str "OPTIONS / HTTP/1.1\r\n\r\n"))],
        some [some exampleCallbackBytes]] ∧
      methodOf (readRequest reads) = str "POST" ∧
      (str "/callback").isPrefixOf (pathOf (readRequest reads)) = true ∧
      str "\x7b\"uid\":\"abc\"\x7d" = bodyOf (readRequest reads) ∧
      acceptLoop 20 [some [some (utf8Encode (str "OPTIONS / HTTP/1.1\r\n\r\n"))],
          some [some exampleCallbackBytes]] =
        pre ++ [Event.wrote ackResponse, Event.emit (str "\x7b\"uid\":\"abc\"\x7d")] :=
  (emit_at_most_once 20 _).2 (str "\x7b\"uid\":\"abc\"\x7d") (by decide)

/-! ### C9: the start operation -/

/-- C9: the start operation, over the abstracted OS interface: a bind
failure or a local-address failure aborts with the stringified OS error;
on success the returned port is exactly the one read back from the local
address; the returned value does not depend on what the spawned accept loop
will encounter (the caller is not blocked on it); and the operation
consults the OS only for the fixed request `"127.0.0.1:0"` (loopback,
OS-assigned port). -/
theorem start_behavior :
    ∀ (L E : Type) (toS : E → String) (bind : String → Except E L)
      (localAddr : L → Except E (String × Nat)) (conns : List AcceptEvent),
      (∀ e : E, bind "127.0.0.1:0" = .error e →
        startOauthServer toS bind localAddr conns = .error (toS e)) ∧
      (∀ (l : L) (e : E), bind "127.0.0.1:0" = .ok l → localAddr l = .error e →
        startOauthServer toS bind localAddr conns = .error (toS e)) ∧
      (∀ (l : L) (ip : String) (port : Nat), bind "127.0.0.1:0" = .ok l →
        localAddr l = .ok (ip, port) →
        startOauthServer toS bind localAddr conns = .ok (port, acceptLoop 20 conns)) ∧
      (∀ conns' : List AcceptEvent,
        (startOauthServer toS bind localAddr conns).map Prod.fst =
          (startOauthServer toS bind localAddr conns').map Prod.fst) ∧
      (∀ bind' : String → Except E L, bind "127.0.0.1:0" = bind' "127.0.0.1:0" →
        startOauthServer toS bind localAddr conns = startOauthServer toS bind' localAddr conns) := by
  intro L E toS bind localAddr conns
  refine ⟨fun e he => by simp [startOauthServer, he],
    fun l e hl he => by simp [startOauthServer, hl, he],
    fun l ip port hl hp => by simp [startOauthServer, hl, hp],
    fun conns' => ?_,
    fun bind' hb => by rw [startOauthServer, startOauthServer, ← hb]⟩
  cases hb : bind "127.0.0.1:0" with
  | error e => simp [startOauthServer, hb]
  | ok l =>
    cases ha : localAddr l with
    | error e => simp [startOauthServer, hb, ha]
    | ok a => simp [startOauthServer, hb, ha, Except.map]

/-- C9 witness: a failing bind surfaces its error string; a successful bind
with a read-back port 49152 returns that port. -/
theorem start_behavior_witness :
    startOauthServer (L := Unit) (E := String) id (fun _ => .error "bind failed")
        (fun _ => .ok ("127.0.0.1", 49152)) [] = .error (id "bind failed") ∧
    startOauthServer (L := Unit) (E := String) id (fun _ => .ok ())
        (fun _ => .ok ("127.0.0.1", 49152)) [] = .ok (49152, acceptLoop 20 []) :=
  ⟨(start_behavior Unit String id (fun _ => .error "bind failed")
      (fun _ => .ok ("127.0.0.1", 49152)) []).1 "bind failed" rfl,
   (start_behavior Unit String id (fun _ => .ok ())
      (fun _ => .ok ("127.0.0.1", 49152)) []).2.2.1 () "127.0.0.1" 49152 rfl rfl⟩

end OauthListener
